import Mathlib

/- Shallow embedding of the posts/stories lifecycle subsystem of the
college-event backend: the SQL repository functions of
migrations/007_stories_and_posts.sql, the HTTP handler logic of
internal/api/handlers/posts.go and of the stories handler, and the
background cleanup/archival jobs of internal/jobs/cleanup.go.

Timestamps on stories are modeled as integer ticks (only ordering and
equality of timestamps matter to the expiry logic).  Timestamps on posts
are modeled as calendar dates at midnight, because the archival
eligibility cutoff is computed with Postgres month arithmetic
(CURRENT_TIMESTAMP - INTERVAL 2 months), which is calendar-dependent. -/

/-- Content type column of posts and stories; VARCHAR restricted to
the values text, image, video by the migration. -/
inductive ContentType
  | text
  | image
  | video
deriving DecidableEq

/-- A row of the stories table (migration 007): media URLs, creation
and expiry ticks, denormalized counters.  thumbnail_url is NOT NULL. -/
structure Story where
  id : Nat
  contentType : ContentType
  imageUrl : Option String
  videoUrl : Option String
  thumbnailUrl : String
  durationSeconds : Option Int
  createdAt : Nat
  expiresAt : Nat
  viewCount : Int
  likeCount : Int
deriving DecidableEq

/-- get_expired_stories(): SELECT ... FROM stories s WHERE
s.expires_at < CURRENT_TIMESTAMP (the ORDER BY expires_at ASC clause is
immaterial to the membership properties proved here). -/
def getExpiredStories (now : Nat) (stories : List Story) : List Story :=
  stories.filter (fun s => decide (s.expiresAt < now))

/-- ListStories handler: WHERE s.expires_at > CURRENT_TIMESTAMP
(ORDER BY created_at DESC immaterial to membership; the JOIN to users is
total because created_by is NOT NULL REFERENCES users). -/
def listLiveStories (now : Nat) (stories : List Story) : List Story :=
  stories.filter (fun s => decide (now < s.expiresAt))

/-- A story whose expires_at tick is exactly 100, used to probe the
boundary case expires_at = now. -/
def storyAtNow : Story :=
  { id := 1
    contentType := ContentType.image
    imageUrl := some "https://storage.googleapis.com/bucket/stories/a.jpg"
    videoUrl := none
    thumbnailUrl := "https://storage.googleapis.com/bucket/stories/a_t.jpg"
    durationSeconds := none
    createdAt := 0
    expiresAt := 100
    viewCount := 0
    likeCount := 0 }

/-- A calendar date (proleptic Gregorian), modeling the TIMESTAMP
columns of posts at midnight precision. -/
structure Date where
  year : Nat
  month : Nat
  day : Nat
deriving DecidableEq

/-- Gregorian leap-year rule. -/
def isLeap (y : Nat) : Bool :=
  (y % 4 == 0 && y % 100 != 0) || (y % 400 == 0)

/-- Length of month m of year y. -/
def daysInMonth (y m : Nat) : Nat :=
  if m = 2 then (if isLeap y then 29 else 28)
  else if m = 4 ∨ m = 6 ∨ m = 9 ∨ m = 11 then 30
  else 31

/-- Total days in months 1..m-1 of year y. -/
def daysBeforeMonth (y m : Nat) : Nat :=
  (List.range (m - 1)).foldl (fun acc k => acc + daysInMonth y (k + 1)) 0

/-- Rank of a date on the proleptic Gregorian day line (0001-01-01 has
rank 1); differences of ranks are elapsed whole days, which is what
EXTRACT(DAY FROM (t2 - t1)) yields for midnight timestamps. -/
def dateToDays (d : Date) : Nat :=
  365 * (d.year - 1) + (d.year - 1) / 4 - (d.year - 1) / 100
    + (d.year - 1) / 400 + daysBeforeMonth d.year d.month + d.day

/-- Postgres timestamp minus INTERVAL 2 months: the month field is
decremented by two (borrowing from the year), and the day-of-month is
clamped to the length of the resulting month. -/
def subTwoMonths (d : Date) : Date :=
  if 2 < d.month then
    { year := d.year, month := d.month - 2
      day := min d.day (daysInMonth d.year (d.month - 2)) }
  else
    { year := d.year - 1, month := d.month + 10
      day := min d.day (daysInMonth (d.year - 1) (d.month + 10)) }

/-- EXTRACT(DAY FROM (CURRENT_TIMESTAMP - created_at))::INTEGER for
midnight timestamps: elapsed whole days. -/
def ageDays (now created : Date) : Nat :=
  dateToDays now - dateToDays created

/-- storage_class column of posts: STANDARD, NEARLINE, COLDLINE or
ARCHIVE (default STANDARD). -/
inductive StorageClass
  | standard
  | nearline
  | coldline
  | archive
deriving DecidableEq

/-- A row of the posts table (migration 007). -/
structure Post where
  id : Nat
  contentType : ContentType
  imageUrl : Option String
  videoUrl : Option String
  thumbnailUrl : Option String
  durationSeconds : Option Int
  description : String
  hashtags : List String
  createdAt : Date
  updatedAt : Date
  deletedAt : Option Date
  archivedAt : Option Date
  storageClass : StorageClass
  likeCount : Int
  commentCount : Int
  shareCount : Int
  viewCount : Int
deriving DecidableEq

/-- WHERE clause of get_posts_for_archive(): deleted_at IS NULL AND
archived_at IS NULL AND storage_class = STANDARD AND
created_at < (CURRENT_TIMESTAMP - INTERVAL 2 months). -/
def isArchivalCandidate (now : Date) (p : Post) : Bool :=
  decide (p.deletedAt = none) && decide (p.archivedAt = none)
    && decide (p.storageClass = StorageClass.standard)
    && decide (dateToDays p.createdAt < dateToDays (subTwoMonths now))

/-- get_posts_for_archive(): the rows matching the WHERE clause
(ORDER BY created_at ASC immaterial to the membership properties
proved here). -/
def getPostsForArchive (now : Date) (posts : List Post) : List Post :=
  posts.filter (isArchivalCandidate now)

/-- Effect of mark_post_as_archived on a matched row: archived_at and
updated_at set to the current timestamp, storage_class set to
ARCHIVE. -/
def markArchivedRow (now : Date) (p : Post) : Post :=
  { p with
    archivedAt := some now
    storageClass := StorageClass.archive
    updatedAt := now }

/-- mark_post_as_archived(post_uuid): UPDATE posts SET archived_at,
storage_class, updated_at WHERE id = post_uuid; returns FOUND. -/
def markPostAsArchived (now : Date) (pid : Nat) (posts : List Post) :
    List Post × Bool :=
  (posts.map (fun p => if p.id = pid then markArchivedRow now p else p),
   posts.any (fun p => decide (p.id = pid)))

/-- The attributes supplied when a post row is created. -/
structure PostAttrs where
  id : Nat
  contentType : ContentType
  imageUrl : Option String
  videoUrl : Option String
  thumbnailUrl : Option String
  durationSeconds : Option Int
  description : String
  hashtags : List String
  createdAt : Date
deriving DecidableEq

/-- Row created by CreatePost: INSERT with default storage_class
STANDARD, archived_at and deleted_at NULL, all counters 0. -/
def createPostRow (a : PostAttrs) : Post :=
  { id := a.id, contentType := a.contentType, imageUrl := a.imageUrl
    videoUrl := a.videoUrl, thumbnailUrl := a.thumbnailUrl
    durationSeconds := a.durationSeconds, description := a.description
    hashtags := a.hashtags, createdAt := a.createdAt
    updatedAt := a.createdAt, deletedAt := none, archivedAt := none
    storageClass := StorageClass.standard
    likeCount := 0, commentCount := 0, shareCount := 0, viewCount := 0 }

/-- The write operations that touch a posts row after creation:
UpdatePost (description/hashtags, WHERE deleted_at IS NULL), DeletePost
(soft delete, WHERE deleted_at IS NULL), the trigger-driven
engagement-counter updates on edge insert/delete, and the archival
job's mark_post_as_archived. -/
inductive PostOp
  | updateContent (desc : String) (tags : List String) (now : Date)
  | softDelete (now : Date)
  | likeIns
  | likeDel
  | commentIns
  | commentDel
  | shareIns
  | viewIns
  | markArchived (now : Date)

/-- Apply one operation to a posts row. -/
def applyPostOp (p : Post) : PostOp → Post
  | .updateContent d t now =>
      if p.deletedAt = none then
        { p with description := d, hashtags := t, updatedAt := now }
      else p
  | .softDelete now =>
      if p.deletedAt = none then { p with deletedAt := some now } else p
  | .likeIns => { p with likeCount := p.likeCount + 1 }
  | .likeDel => { p with likeCount := p.likeCount - 1 }
  | .commentIns => { p with commentCount := p.commentCount + 1 }
  | .commentDel => { p with commentCount := p.commentCount - 1 }
  | .shareIns => { p with shareCount := p.shareCount + 1 }
  | .viewIns => { p with viewCount := p.viewCount + 1 }
  | .markArchived now => markArchivedRow now p

/-- Apply a sequence of operations to a posts row. -/
def applyPostOps (ops : List PostOp) (p : Post) : Post :=
  ops.foldl applyPostOp p

/-- The lifecycle invariant of the data model: archived_at IS NOT NULL
iff storage_class = ARCHIVE. -/
def archiveInvariant (p : Post) : Prop :=
  p.archivedAt ≠ none ↔ p.storageClass = StorageClass.archive

/-- A sweep date: 2026-03-01. -/
def nowMar1 : Date := { year := 2026, month := 3, day := 1 }

/-- A text post created 2025-12-31, i.e. exactly 60 days before
nowMar1, not deleted, not archived, STANDARD storage. -/
def postDec31 : Post :=
  createPostRow
    { id := 42, contentType := ContentType.text, imageUrl := none
      videoUrl := none, thumbnailUrl := none, durationSeconds := none
      description := "welcome week", hashtags := []
      createdAt := { year := 2025, month := 12, day := 31 } }

/-- Loop of extractPathFromURL (jobs/cleanup.go): first index i whose
part equals storage.googleapis.com with at least two parts after it. -/
def gcsHostIdx : List String → Nat → Nat → Option Nat
  | [], _, _ => none
  | part :: rest, i, len =>
      if part = "storage.googleapis.com" ∧ i + 2 < len then some i
      else gcsHostIdx rest (i + 1) len

/-- extractPathFromURL (jobs/cleanup.go): split the URL on the slash;
return it unchanged when fewer than two parts; when some part is
storage.googleapis.com followed by a bucket segment and a path, join
everything after the bucket segment; otherwise join the last two
parts. -/
def extractPathFromURL (url : String) : String :=
  let parts := url.splitOn "/"
  if parts.length < 2 then url
  else
    match gcsHostIdx parts 0 parts.length with
    | some i => String.intercalate "/" (parts.drop (i + 2))
    | none => String.intercalate "/" (parts.drop (parts.length - 2))

/-- One row returned by get_expired_stories(): story id and the three
nullable media URLs (the hours_expired column is observability only). -/
structure ExpiredStoryRow where
  storyId : Nat
  imageUrl : Option String
  videoUrl : Option String
  thumbnailUrl : Option String
deriving DecidableEq

/-- Environment of one reaper sweep: whether each fetched row scans
successfully, whether each blob delete succeeds, and whether
hard_delete_story succeeds per story id. -/
structure CleanupEnv where
  scanOk : ExpiredStoryRow → Bool
  blobDeleteOk : String → Bool
  rowDeleteOk : Nat → Bool

/-- Terminal outcome of one story inside a reaper sweep. -/
inductive StoryCleanupOutcome
  | scanFailed
  | rowDeleteFailed
  | deleted
deriving DecidableEq

/-- What happened to one story in a sweep. -/
structure StoryCleanupResult where
  outcome : StoryCleanupOutcome
  blobDeletesAttempted : List String
  rowDeleteAttempted : Bool
deriving DecidableEq

/-- The nullable URLs that are Valid and non-empty, in source order
(the Go code guards each blob with url.Valid and url.String different
from the empty string). -/
def presentUrls : List (Option String) → List String
  | [] => []
  | none :: rest => presentUrls rest
  | some u :: rest =>
      if u = "" then presentUrls rest else u :: presentUrls rest

/-- Per-story body of CleanupExpiredStories: a scan failure skips the
story entirely; otherwise every present blob is deleted best-effort
(failures logged and ignored, the results never consulted) and
hard_delete_story is then attempted unconditionally. -/
def processExpiredStory (env : CleanupEnv) (row : ExpiredStoryRow) :
    StoryCleanupResult :=
  if env.scanOk row = false then
    { outcome := StoryCleanupOutcome.scanFailed
      blobDeletesAttempted := []
      rowDeleteAttempted := false }
  else
    { outcome :=
        if env.rowDeleteOk row.storyId then StoryCleanupOutcome.deleted
        else StoryCleanupOutcome.rowDeleteFailed
      blobDeletesAttempted :=
        (presentUrls [row.imageUrl, row.videoUrl, row.thumbnailUrl]).map
          extractPathFromURL
      rowDeleteAttempted := true }

/-- Accumulated state of one CleanupExpiredStories run. -/
structure CleanupRun where
  results : List StoryCleanupResult
  deletedCount : Nat
  failedCount : Nat
  errorReturned : Bool
deriving DecidableEq

/-- One iteration of the CleanupExpiredStories loop: process the story
and bump the deleted/failed counters. -/
def cleanupStep (env : CleanupEnv) (acc : CleanupRun)
    (row : ExpiredStoryRow) : CleanupRun :=
  let r := processExpiredStory env row
  { results := acc.results ++ [r]
    deletedCount := acc.deletedCount
      + (if r.outcome = StoryCleanupOutcome.deleted then 1 else 0)
    failedCount := acc.failedCount
      + (if r.outcome = StoryCleanupOutcome.deleted then 0 else 1)
    errorReturned := acc.errorReturned }

/-- CleanupExpiredStories main loop over the fetched rows; the Go
function returns nil after the loop. -/
def cleanupExpiredStories (env : CleanupEnv)
    (rows : List ExpiredStoryRow) : CleanupRun :=
  rows.foldl (cleanupStep env)
    { results := [], deletedCount := 0, failedCount := 0
      errorReturned := false }

/-- Environment of the archival sweep: result of MoveToArchive per
storage path, and whether the mark_post_as_archived call succeeds. -/
structure ArchiveEnv where
  moveOk : String → Bool
  markOk : Bool

/-- The per-post blob loop of ArchiveOldPosts: attempt MoveToArchive on
each Valid, non-empty URL in order; return none as soon as one move
fails (the Go code then abandons the post with continue), otherwise
some mediaMoved, where mediaMoved records whether any blob was
present. -/
def moveBlobs (env : ArchiveEnv) : List (Option String) → Bool → Option Bool
  | [], moved => some moved
  | none :: rest, moved => moveBlobs env rest moved
  | some u :: rest, moved =>
      if u = "" then moveBlobs env rest moved
      else if env.moveOk (extractPathFromURL u) then moveBlobs env rest true
      else none

/-- Result of processing one archival candidate. -/
structure ArchiveStepResult where
  post : Post
  markCalled : Bool
deriving DecidableEq

/-- Per-candidate body of ArchiveOldPosts: move all present blobs; on
any failure skip the post entirely; only when the moves succeeded and
at least one blob was present (mediaMoved) call
mark_post_as_archived. -/
def archivePostStep (env : ArchiveEnv) (now : Date) (p : Post) :
    ArchiveStepResult :=
  match moveBlobs env [p.imageUrl, p.videoUrl, p.thumbnailUrl] false with
  | none => { post := p, markCalled := false }
  | some false => { post := p, markCalled := false }
  | some true =>
      { post := if env.markOk then markArchivedRow now p else p
        markCalled := true }

/-- The storage paths of the present media blobs of a post. -/
def postBlobPaths (p : Post) : List String :=
  (presentUrls [p.imageUrl, p.videoUrl, p.thumbnailUrl]).map
    extractPathFromURL

/-- Every present blob move of a post succeeds. -/
def allMovesSucceed (env : ArchiveEnv) (p : Post) : Bool :=
  (postBlobPaths p).all env.moveOk

/-- An archival environment where every move and the DB update
succeed. -/
def envAllOk : ArchiveEnv := { moveOk := fun _ => true, markOk := true }

/-- An image post created 2025-12-01, an archival candidate on
nowMar1, with one present media blob. -/
def postImg : Post :=
  createPostRow
    { id := 7, contentType := ContentType.image
      imageUrl := some "b/p.jpg", videoUrl := none
      thumbnailUrl := none, durationSeconds := none
      description := "pic", hashtags := []
      createdAt := { year := 2025, month := 12, day := 1 } }

/-- A concrete expired-story row whose thumbnail URL is present but
empty. -/
def rowStory7 : ExpiredStoryRow :=
  { storyId := 7, imageUrl := some "b/s.jpg", videoUrl := none
    thumbnailUrl := some "" }

/-- A cleanup environment where every scan and row delete succeeds but
every blob delete fails. -/
def envBlobFail : CleanupEnv :=
  { scanOk := fun _ => true, blobDeleteOk := fun _ => false
    rowDeleteOk := fun _ => true }

/-- The same environment with blob deletes succeeding. -/
def envBlobOkC2 : CleanupEnv :=
  { scanOk := fun _ => true, blobDeleteOk := fun _ => true
    rowDeleteOk := fun _ => true }

/-- The parts of the JSON envelope relevant to the engagement
handlers: HTTP status, success flag, the liked payload of ToggleLike,
and the error message. -/
structure ApiResponse where
  status : Nat
  success : Bool
  liked : Option Bool
  errorMsg : Option String
deriving DecidableEq

/-- The tables touched by the post ToggleLike handler: the posts rows
(like_count maintained by trigger_update_post_like_count) and the
post_likes edge table as (post_id, user_id) pairs. -/
structure LikesDB where
  posts : List Post
  postLikes : List (Nat × Nat)
deriving DecidableEq

/-- SELECT EXISTS(SELECT 1 FROM post_likes WHERE post_id = pid AND
user_id = uid). -/
def likeExists (likes : List (Nat × Nat)) (pid uid : Nat) : Bool :=
  likes.any (fun e => decide (e.1 = pid) && decide (e.2 = uid))

/-- UPDATE posts SET like_count = like_count + d WHERE id = pid: the
body of update_post_like_count with d = 1 on INSERT and d = -1 on
DELETE. -/
def bumpLikeCount (d : Int) (pid : Nat) (posts : List Post) : List Post :=
  posts.map (fun p =>
    if p.id = pid then { p with likeCount := p.likeCount + d } else p)

/-- DELETE FROM post_likes WHERE post_id = pid AND user_id = uid; the
AFTER DELETE trigger fires once per deleted row, so the counter drops
by the number of matching rows (at most one under the UNIQUE
constraint). -/
def deleteLike (db : LikesDB) (pid uid : Nat) : LikesDB :=
  let removed :=
    db.postLikes.countP (fun e => decide (e.1 = pid) && decide (e.2 = uid))
  { posts := bumpLikeCount (-(removed : Int)) pid db.posts
    postLikes :=
      db.postLikes.filter
        (fun e => !(decide (e.1 = pid) && decide (e.2 = uid))) }

/-- INSERT INTO post_likes (post_id, user_id): a unique violation when
the pair is already present (no row inserted, no trigger, Exec returns
an error); otherwise the row is appended and the AFTER INSERT trigger
bumps the counter.  The Bool is true when the insert succeeded. -/
def insertLike (db : LikesDB) (pid uid : Nat) : LikesDB × Bool :=
  if likeExists db.postLikes pid uid then (db, false)
  else
    ({ posts := bumpLikeCount 1 pid db.posts
       postLikes := db.postLikes ++ [(pid, uid)] }, true)

/-- ToggleLike (posts.go): the existence check runs against dbCheck
and the write against dbWrite; the two coincide unless a concurrent
toggle committed between the check and the write.  On a failed insert
the handler replies 500 Failed to like post. -/
def toggleLikeRaced (dbCheck dbWrite : LikesDB) (pid uid : Nat) :
    LikesDB × ApiResponse :=
  if likeExists dbCheck.postLikes pid uid then
    (deleteLike dbWrite pid uid,
     { status := 200, success := true, liked := some false
       errorMsg := none })
  else
    match insertLike dbWrite pid uid with
    | (db2, true) =>
        (db2,
         { status := 200, success := true, liked := some true
           errorMsg := none })
    | (_, false) =>
        (dbWrite,
         { status := 500, success := false, liked := none
           errorMsg := some "Failed to like post" })

/-- ToggleLike without interference: check and write see the same
database state. -/
def toggleLike (db : LikesDB) (pid uid : Nat) : LikesDB × ApiResponse :=
  toggleLikeRaced db db pid uid

/-- like_count of the posts row with id pid. -/
def likeCountOf (db : LikesDB) (pid : Nat) : Option Int :=
  (db.posts.find? (fun p => decide (p.id = pid))).map (fun p => p.likeCount)

/-- The UNIQUE(post_id, user_id) constraint of post_likes: each edge
occurs at most once. -/
def likesUnique (db : LikesDB) : Prop :=
  ∀ pid uid,
    db.postLikes.countP (fun e => decide (e.1 = pid) && decide (e.2 = uid))
      ≤ 1

/-- A fresh text post with id 1 and zero counters. -/
def freshPost1 : Post :=
  createPostRow
    { id := 1, contentType := ContentType.text, imageUrl := none
      videoUrl := none, thumbnailUrl := none, durationSeconds := none
      description := "hello", hashtags := []
      createdAt := { year := 2026, month := 1, day := 1 } }

/-- Scenario C start: one fresh post, no likes. -/
def likesDB0 : LikesDB := { posts := [freshPost1], postLikes := [] }

/-- After user 10 toggles once. -/
def likesDB1 : LikesDB := (toggleLike likesDB0 1 10).1

/-- After user 20 also toggles once. -/
def likesDB2 : LikesDB := (toggleLike likesDB1 1 20).1

/-- After user 10 toggles a second time. -/
def likesDB3 : LikesDB := (toggleLike likesDB2 1 10).1

/-- The tables touched by the story TrackView handler: stories rows
(view_count maintained by trigger_increment_story_view_count) and the
story_views edge table with UNIQUE(story_id, user_id). -/
structure StoriesDB where
  stories : List Story
  storyViews : List (Nat × Nat)
deriving DecidableEq

/-- Existence of a (story, user) view row. -/
def viewExists (views : List (Nat × Nat)) (sid uid : Nat) : Bool :=
  views.any (fun e => decide (e.1 = sid) && decide (e.2 = uid))

/-- UPDATE stories SET view_count = view_count + 1 WHERE id = sid: the
body of increment_story_view_count. -/
def bumpViewCount (sid : Nat) (stories : List Story) : List Story :=
  stories.map (fun s =>
    if s.id = sid then { s with viewCount := s.viewCount + 1 } else s)

/-- TrackView (stories handler): INSERT INTO story_views (story_id,
user_id) VALUES ... ON CONFLICT DO NOTHING.  On conflict no row is
inserted and the AFTER INSERT trigger does not fire; Exec returns no
error, so the handler replies success either way. -/
def trackView (db : StoriesDB) (sid uid : Nat) : StoriesDB × ApiResponse :=
  if viewExists db.storyViews sid uid then
    (db, { status := 200, success := true, liked := none, errorMsg := none })
  else
    ({ stories := bumpViewCount sid db.stories
       storyViews := db.storyViews ++ [(sid, uid)] },
     { status := 200, success := true, liked := none, errorMsg := none })

/-- The users recorded in a views table as having viewed story sid. -/
def viewersOfViews (views : List (Nat × Nat)) (sid : Nat) : List Nat :=
  (views.filter (fun e => decide (e.1 = sid))).map (fun e => e.2)

/-- The users recorded as having viewed story sid. -/
def viewersOf (db : StoriesDB) (sid : Nat) : List Nat :=
  viewersOfViews db.storyViews sid

/-- Per-row consistency: every stories row's view_count equals the
number of its story_views rows, and the edge table has no duplicate
rows (the UNIQUE constraint). -/
def viewsConsistent (db : StoriesDB) : Prop :=
  (∀ s ∈ db.stories, s.viewCount = ((viewersOf db s.id).length : Int))
  ∧ db.storyViews.Nodup

/-- Replay a sequence of (story, user) view recordings through
TrackView. -/
def runViews (ops : List (Nat × Nat)) (db : StoriesDB) : StoriesDB :=
  ops.foldl (fun d e => (trackView d e.1 e.2).1) db

/-- A fresh story with id 1 and zero counters. -/
def story1 : Story :=
  { id := 1, contentType := ContentType.image, imageUrl := some "b/s.jpg"
    videoUrl := none, thumbnailUrl := "b/t.jpg", durationSeconds := none
    createdAt := 0, expiresAt := 86400, viewCount := 0, likeCount := 0 }

/-- One fresh story, no recorded views. -/
def storiesDB0 : StoriesDB := { stories := [story1], storyViews := [] }

/-- CreatePostRequest (models/post.go): content_type is a string bound
required,oneof=text image video; description a string bound
required,min=1,max=2000; the media URL and duration fields are
pointers with no binding tags. -/
structure CreatePostRequest where
  contentType : String
  imageUrl : Option String
  videoUrl : Option String
  thumbnailUrl : Option String
  durationSeconds : Option Int
  description : String
deriving DecidableEq

/-- The gin ShouldBindJSON layer of CreatePost: binding fails — a 400
Invalid request reply, before the handler validation block runs —
unless content_type is one of text, image, video (required is
subsumed: an absent field decodes to the empty string, which oneof
rejects) and the description length lies in 1..2000. -/
def bindCreatePost (req : CreatePostRequest) : Bool :=
  (decide (req.contentType = "text") || decide (req.contentType = "image")
      || decide (req.contentType = "video"))
    && decide (0 < req.description.length)
    && decide (req.description.length ≤ 2000)

/-- The validation block of the CreatePost handler (posts.go): image
content requires image_url; video content requires video_url and
thumbnail_url.  Nothing else is checked by the handler. -/
def createPostValidationError (req : CreatePostRequest) : Option String :=
  if req.contentType = "image" ∧ req.imageUrl = none then
    some "image_url required for image content"
  else if req.contentType = "video"
      ∧ (req.videoUrl = none ∨ req.thumbnailUrl = none) then
    some "video_url and thumbnail_url required for video content"
  else none

/-- The posts-table CHECK constraints (migration 007): description
length 1..2000 characters, content_type in (text, image, video), and
the content/media constraint — a text row is unconstrained in its
media columns, an image row needs image_url and no video_url, a video
row needs video_url, thumbnail_url and no image_url.  The video
branch's duration_seconds > 0 has no IS NOT NULL guard: under SQL
three-valued logic it evaluates to NULL when duration_seconds is NULL
and a NULL CHECK passes, so a NULL duration is accepted there. -/
def postsRowCheck (req : CreatePostRequest) : Bool :=
  decide (0 < req.description.length)
    && decide (req.description.length ≤ 2000)
    && (decide (req.contentType = "text")
      || decide (req.contentType = "image")
      || decide (req.contentType = "video"))
    && (decide (req.contentType = "text")
      || (decide (req.contentType = "image")
          && !(decide (req.imageUrl = none))
          && decide (req.videoUrl = none))
      || (decide (req.contentType = "video")
          && !(decide (req.videoUrl = none))
          && decide (req.imageUrl = none)
          && !(decide (req.thumbnailUrl = none))
          && (match req.durationSeconds with
              | some d => decide (0 < d)
              | none => true)))

/-- Outcome of a create call: a 400 Invalid request reply from
ShouldBindJSON, a 400 validation reply from the handler block, a 500
reply when the INSERT violates a table constraint, or a created
row. -/
inductive CreateOutcome
  | bindingError
  | validationError (msg : String)
  | dbError
  | created
deriving DecidableEq

/-- CreatePost pipeline: ShouldBindJSON binding, then the handler
validation block, then the INSERT checked by the posts-table
constraints. -/
def createPost (req : CreatePostRequest) : CreateOutcome :=
  if bindCreatePost req = false then CreateOutcome.bindingError
  else
    match createPostValidationError req with
    | some msg => CreateOutcome.validationError msg
    | none =>
        if postsRowCheck req then CreateOutcome.created
        else CreateOutcome.dbError

/-- CreateStoryRequest (models/post.go): content_type bound
required,oneof=image video; thumbnail_url a NON-POINTER string bound
required (an absent field decodes to the empty string and is
rejected); description an optional string bound omitempty,max=500;
the other media fields are pointers with no binding tags. -/
structure CreateStoryRequest where
  contentType : String
  imageUrl : Option String
  videoUrl : Option String
  thumbnailUrl : String
  durationSeconds : Option Int
  description : Option String
deriving DecidableEq

/-- The gin ShouldBindJSON layer of CreateStory: content_type must be
image or video, thumbnail_url must be non-empty (required on a
non-pointer string), and a present description is at most 500
characters. -/
def bindCreateStory (req : CreateStoryRequest) : Bool :=
  (decide (req.contentType = "image") || decide (req.contentType = "video"))
    && !(decide (req.thumbnailUrl = ""))
    && (match req.description with
        | some d => decide (d.length ≤ 500)
        | none => true)

/-- The validation block of the CreateStory handler: image content
requires image_url; video content requires video_url.  Durations are
not checked by the handler, and the thumbnail is already enforced by
the binding layer. -/
def createStoryValidationError (req : CreateStoryRequest) : Option String :=
  if req.contentType = "image" ∧ req.imageUrl = none then
    some "image_url required for image content"
  else if req.contentType = "video" ∧ req.videoUrl = none then
    some "video_url required for video content"
  else none

/-- The stories-table CHECK constraints (migration 007): content_type
in (image, video) and the media constraint — an image row needs
image_url, no video_url and no duration_seconds; a video row needs
video_url, no image_url and non-NULL positive duration_seconds (here
every comparison is guarded by IS NULL / IS NOT NULL, so the CHECK is
two-valued).  thumbnail_url is NOT NULL, always satisfied by the
handler's non-pointer string. -/
def storiesRowCheck (req : CreateStoryRequest) : Bool :=
  (decide (req.contentType = "image") || decide (req.contentType = "video"))
    && ((decide (req.contentType = "image")
        && !(decide (req.imageUrl = none))
        && decide (req.videoUrl = none)
        && decide (req.durationSeconds = none))
      || (decide (req.contentType = "video")
          && !(decide (req.videoUrl = none))
          && decide (req.imageUrl = none)
          && (match req.durationSeconds with
              | some d => decide (0 < d)
              | none => false)))

/-- CreateStory pipeline: ShouldBindJSON binding, then the handler
validation block, then the INSERT checked by the stories-table
constraints. -/
def createStory (req : CreateStoryRequest) : CreateOutcome :=
  if bindCreateStory req = false then CreateOutcome.bindingError
  else
    match createStoryValidationError req with
    | some msg => CreateOutcome.validationError msg
    | none =>
        if storiesRowCheck req then CreateOutcome.created
        else CreateOutcome.dbError

/-- A text-post request that also carries an image URL. -/
def reqTextWithImage : CreatePostRequest :=
  { contentType := "text", imageUrl := some "b/x.jpg"
    videoUrl := none, thumbnailUrl := none, durationSeconds := none
    description := "hi" }

/-- A video-post request with all required video media plus a stray
image URL. -/
def reqVideoWithImage : CreatePostRequest :=
  { contentType := "video", imageUrl := some "b/x.jpg"
    videoUrl := some "b/v.mp4", thumbnailUrl := some "b/t.jpg"
    durationSeconds := some 5, description := "clip" }

/-- An image-story request whose thumbnail_url field is absent (the
non-pointer string decodes to empty). -/
def reqStoryNoThumb : CreateStoryRequest :=
  { contentType := "image", imageUrl := some "b/i.jpg"
    videoUrl := none, thumbnailUrl := "", durationSeconds := none
    description := none }

/-- The two StorageService implementations provided by the repository:
GCSStorage (internal/storage/gcs.go) and LocalStorage (the local
filesystem implementation for development). -/
inductive StorageImpl
  | gcsStorage
  | localStorage
deriving DecidableEq

/-- initStorageService (server main): provider gcs selects GCSStorage,
anything else — including local, the default — selects LocalStorage. -/
def initStorageService (provider : String) : StorageImpl :=
  if provider = "gcs" then StorageImpl.gcsStorage
  else StorageImpl.localStorage

/-- The methods defined on GCSStorage in internal/storage/gcs.go. -/
def gcsStorageMethods : List String := ["UploadImage", "Delete"]

/-- The methods defined on LocalStorage. -/
def localStorageMethods : List String := ["UploadImage", "Delete"]

/-- Method set of each implementation. -/
def methodsOf : StorageImpl → List String
  | StorageImpl.gcsStorage => gcsStorageMethods
  | StorageImpl.localStorage => localStorageMethods

/-- The runtime capability check at the top of ArchiveOldPosts: the
interface type assertion succeeds iff the dynamic type of the storage
service defines a MoveToArchive method. -/
def supportsMoveToArchive (impl : StorageImpl) : Bool :=
  (methodsOf impl).contains "MoveToArchive"

/-- Summary of one ArchiveOldPosts run. -/
structure ArchiveRun where
  queriedCandidates : Bool
  moveCallCount : Nat
  archivedCount : Nat
  errorReturned : Bool
deriving DecidableEq

/-- Number of MoveToArchive calls issued while processing one
candidate (the loop stops at the first failing move). -/
def moveCalls (env : ArchiveEnv) : List (Option String) → Nat
  | [] => 0
  | none :: rest => moveCalls env rest
  | some u :: rest =>
      if u = "" then moveCalls env rest
      else if env.moveOk (extractPathFromURL u) then 1 + moveCalls env rest
      else 1

/-- ArchiveOldPosts (jobs/cleanup.go): when the storage implementation
does not support MoveToArchive the sweep is skipped wholesale — no
candidate query, no move, no mark, nil error.  Otherwise every
candidate is processed by archivePostStep. -/
def archiveOldPostsRun (impl : StorageImpl) (env : ArchiveEnv) (now : Date)
    (posts : List Post) : ArchiveRun :=
  if supportsMoveToArchive impl = false then
    { queriedCandidates := false, moveCallCount := 0, archivedCount := 0
      errorReturned := false }
  else
    (getPostsForArchive now posts).foldl
      (fun acc p =>
        { queriedCandidates := acc.queriedCandidates
          moveCallCount := acc.moveCallCount
            + moveCalls env [p.imageUrl, p.videoUrl, p.thumbnailUrl]
          archivedCount := acc.archivedCount
            + (if (archivePostStep env now p).markCalled ∧ env.markOk = true
               then 1 else 0)
          errorReturned := acc.errorReturned })
      { queriedCandidates := true, moveCallCount := 0, archivedCount := 0
        errorReturned := false }

/-- Claim C4, original form: a story with expires_at equal to now is
claimed to be in exactly one of the two result sets, and
GetExpiredStories is claimed to return every story with
expires_at <= now.  Both fail at expires_at = now = 100: the story is
returned by neither query, because get_expired_stories compares with
strict < and ListStories with strict >. -/
theorem c4_counterexample :
    storyAtNow.expiresAt ≤ 100
    ∧ storyAtNow ∉ getExpiredStories 100 [storyAtNow]
    ∧ storyAtNow ∉ listLiveStories 100 [storyAtNow] := by
  refine ⟨le_refl _, ?_, ?_⟩ <;> simp [getExpiredStories, listLiveStories, storyAtNow]

/-- Claim C4, amended: GetExpiredStories returns exactly the stories
with expires_at strictly before now, ListLiveStories exactly those with
expires_at strictly after now; a story with expires_at in the future is
never in GetExpiredStories, one past expiry is never in ListLiveStories,
a story whose expires_at differs from now is in exactly one of the two
sets, and a story with expires_at exactly equal to now is in neither. -/
theorem c4_expiry_partition (now : Nat) (db : List Story) (s : Story) :
    (s ∈ getExpiredStories now db ↔ s ∈ db ∧ s.expiresAt < now)
    ∧ (s ∈ listLiveStories now db ↔ s ∈ db ∧ now < s.expiresAt)
    ∧ (now < s.expiresAt → s ∉ getExpiredStories now db)
    ∧ (s.expiresAt < now → s ∉ listLiveStories now db)
    ∧ (s ∈ db → s.expiresAt ≠ now →
        (s ∈ getExpiredStories now db ↔ s ∉ listLiveStories now db))
    ∧ (s.expiresAt = now →
        s ∉ getExpiredStories now db ∧ s ∉ listLiveStories now db) := by
  have hexp : s ∈ getExpiredStories now db ↔ s ∈ db ∧ s.expiresAt < now := by
    simp [getExpiredStories, List.mem_filter]
  have hlive : s ∈ listLiveStories now db ↔ s ∈ db ∧ now < s.expiresAt := by
    simp [listLiveStories, List.mem_filter]
  refine ⟨hexp, hlive, ?_, ?_, ?_, ?_⟩
  · intro h hmem
    have := (hexp.mp hmem).2
    omega
  · intro h hmem
    have := (hlive.mp hmem).2
    omega
  · intro hmem hne
    rw [hexp, hlive]
    constructor
    · rintro ⟨-, hlt⟩ ⟨-, hgt⟩
      omega
    · intro hnot
      refine ⟨hmem, ?_⟩
      by_contra hge
      exact hnot ⟨hmem, by omega⟩
  · intro heq
    constructor
    · intro hmem
      have := (hexp.mp hmem).2
      omega
    · intro hmem
      have := (hlive.mp hmem).2
      omega

/-- Witness for c4_expiry_partition at a concrete boundary story:
the hypothesis expires_at = now is discharged at storyAtNow with
now = 100. -/
theorem c4_expiry_partition_witness :
    storyAtNow ∉ getExpiredStories 100 [storyAtNow]
    ∧ storyAtNow ∉ listLiveStories 100 [storyAtNow] :=
  (c4_expiry_partition 100 [storyAtNow] storyAtNow).2.2.2.2.2 rfl

/-- Helper: membership in get_posts_for_archive unfolded to the WHERE
clause conjuncts. -/
theorem mem_getPostsForArchive (now : Date) (db : List Post) (p : Post) :
    p ∈ getPostsForArchive now db
    ↔ p ∈ db ∧ p.deletedAt = none ∧ p.archivedAt = none
      ∧ p.storageClass = StorageClass.standard
      ∧ dateToDays p.createdAt < dateToDays (subTwoMonths now) := by
  simp [getPostsForArchive, isArchivalCandidate, List.mem_filter, and_assoc]

/-- Claim C5, original form, is false: the archival cutoff is
created_at < now - INTERVAL 2 months (calendar month arithmetic), not
age > 60 days.  A post created 2025-12-31 is returned by
get_posts_for_archive on 2026-03-01 although its age is exactly 60
days (2026-03-01 minus two months is 2026-01-01, and Jan/Feb 2026
total 59 days). -/
theorem c5_counterexample :
    postDec31 ∈ getPostsForArchive nowMar1 [postDec31]
    ∧ ageDays nowMar1 postDec31.createdAt = 60 := by
  constructor
  · decide
  · decide

/-- Claim C5, amended: get_posts_for_archive returns exactly the posts
with deleted_at NULL, archived_at NULL, storage_class STANDARD and
created_at strictly before now minus two calendar months (Postgres
month subtraction with day-of-month clamping); this cutoff is not
equivalent to age > 60 days. -/
theorem c5_archival_candidates (now : Date) (db : List Post) (p : Post) :
    p ∈ getPostsForArchive now db
    ↔ p ∈ db ∧ p.deletedAt = none ∧ p.archivedAt = none
      ∧ p.storageClass = StorageClass.standard
      ∧ dateToDays p.createdAt < dateToDays (subTwoMonths now) :=
  mem_getPostsForArchive now db p

/-- Helper: no operation ever clears archived_at. -/
theorem applyPostOp_archivedAt_ne (p : Post) (op : PostOp)
    (h : p.archivedAt ≠ none) : (applyPostOp p op).archivedAt ≠ none := by
  cases op with
  | updateContent d t now =>
      by_cases hd : p.deletedAt = none <;> simp [applyPostOp, hd, h]
  | softDelete now =>
      by_cases hd : p.deletedAt = none <;> simp [applyPostOp, hd, h]
  | likeIns => simpa [applyPostOp] using h
  | likeDel => simpa [applyPostOp] using h
  | commentIns => simpa [applyPostOp] using h
  | commentDel => simpa [applyPostOp] using h
  | shareIns => simpa [applyPostOp] using h
  | viewIns => simpa [applyPostOp] using h
  | markArchived now => simp [applyPostOp, markArchivedRow]

/-- Helper: archived_at stays non-NULL under any operation sequence. -/
theorem applyPostOps_archivedAt_ne (ops : List PostOp) (p : Post)
    (h : p.archivedAt ≠ none) : (applyPostOps ops p).archivedAt ≠ none := by
  induction ops generalizing p with
  | nil => exact h
  | cons op rest ih => exact ih _ (applyPostOp_archivedAt_ne p op h)

/-- Helper: every operation preserves the archive invariant. -/
theorem applyPostOp_invariant (p : Post) (op : PostOp)
    (h : archiveInvariant p) : archiveInvariant (applyPostOp p op) := by
  cases op with
  | updateContent d t now =>
      by_cases hd : p.deletedAt = none <;>
        simpa [applyPostOp, hd, archiveInvariant] using h
  | softDelete now =>
      by_cases hd : p.deletedAt = none <;>
        simpa [applyPostOp, hd, archiveInvariant] using h
  | likeIns => simpa [applyPostOp, archiveInvariant] using h
  | likeDel => simpa [applyPostOp, archiveInvariant] using h
  | commentIns => simpa [applyPostOp, archiveInvariant] using h
  | commentDel => simpa [applyPostOp, archiveInvariant] using h
  | shareIns => simpa [applyPostOp, archiveInvariant] using h
  | viewIns => simpa [applyPostOp, archiveInvariant] using h
  | markArchived now => simp [applyPostOp, markArchivedRow, archiveInvariant]

/-- Helper: the archive invariant holds along any operation sequence. -/
theorem applyPostOps_invariant (ops : List PostOp) (p : Post)
    (h : archiveInvariant p) : archiveInvariant (applyPostOps ops p) := by
  induction ops generalizing p with
  | nil => exact h
  | cons op rest ih => exact ih _ (applyPostOp_invariant p op h)

/-- Claim C3: for every post and every operation sequence after
creation, archived_at IS NOT NULL iff storage_class = ARCHIVE; and
once mark_post_as_archived has been applied to a post, no further
operation sequence can make it reappear in get_posts_for_archive. -/
theorem c3_invariant_and_monotone :
    (∀ (a : PostAttrs) (ops : List PostOp),
      archiveInvariant (applyPostOps ops (createPostRow a)))
    ∧ (∀ (p : Post) (archNow : Date) (ops : List PostOp) (now2 : Date)
        (db : List Post),
      applyPostOps ops (applyPostOp p (PostOp.markArchived archNow))
        ∉ getPostsForArchive now2 db) := by
  constructor
  · intro a ops
    apply applyPostOps_invariant
    simp [archiveInvariant, createPostRow]
  · intro p archNow ops now2 db hmem
    have harch :
        (applyPostOps ops (applyPostOp p (PostOp.markArchived archNow))).archivedAt
          ≠ none := by
      apply applyPostOps_archivedAt_ne
      simp [applyPostOp, markArchivedRow]
    exact harch ((mem_getPostsForArchive now2 db _).mp hmem).2.2.1

/-- Witness for c3_invariant_and_monotone at a concrete post: the
freshly created postDec31 satisfies the invariant, and after
mark_post_as_archived it is not an archival candidate. -/
theorem c3_invariant_and_monotone_witness :
    archiveInvariant (applyPostOps [] postDec31)
    ∧ applyPostOps [] (applyPostOp postDec31 (PostOp.markArchived nowMar1))
        ∉ getPostsForArchive nowMar1 [applyPostOp postDec31 (PostOp.markArchived nowMar1)] :=
  ⟨c3_invariant_and_monotone.1
      { id := 42, contentType := ContentType.text, imageUrl := none
        videoUrl := none, thumbnailUrl := none, durationSeconds := none
        description := "welcome week", hashtags := []
        createdAt := { year := 2025, month := 12, day := 31 } } [],
   c3_invariant_and_monotone.2 postDec31 nowMar1 [] nowMar1 _⟩

/-- Helper: the reaper loop produces one result per fetched row, in
order, and never returns an error. -/
theorem cleanupExpiredStories_spec (env : CleanupEnv)
    (rows : List ExpiredStoryRow) :
    (cleanupExpiredStories env rows).results
        = rows.map (processExpiredStory env)
      ∧ (cleanupExpiredStories env rows).errorReturned = false := by
  have key : ∀ (rs : List ExpiredStoryRow) (acc : CleanupRun),
      (rs.foldl (cleanupStep env) acc).results
          = acc.results ++ rs.map (processExpiredStory env)
        ∧ (rs.foldl (cleanupStep env) acc).errorReturned
          = acc.errorReturned := by
    intro rs
    induction rs with
    | nil => intro acc; simp
    | cons r rest ih =>
        intro acc
        rcases ih (cleanupStep env acc r) with ⟨h1, h2⟩
        refine ⟨?_, ?_⟩
        · rw [List.foldl_cons, h1]
          simp [cleanupStep, List.append_assoc]
        · rw [List.foldl_cons, h2]
          rfl
  rcases key rows ⟨[], 0, 0, false⟩ with ⟨h1, h2⟩
  exact ⟨by simpa using h1, by simpa using h2⟩

/-- Claim C2: in a reaper sweep, (1) every successfully scanned story
has its database hard-delete attempted, whatever the blob-deletion
results; (2) the per-story result does not depend on the blob-delete
environment at all; (3) the sweep produces a result for every fetched
row, the result at each position is a function of that row alone, and
the sweep as a whole returns no error. -/
theorem c2_reaper_isolation :
    (∀ (env : CleanupEnv) (row : ExpiredStoryRow),
      env.scanOk row = true →
      (processExpiredStory env row).rowDeleteAttempted = true)
    ∧ (∀ (env envB : CleanupEnv) (row : ExpiredStoryRow),
      env.scanOk = envB.scanOk → env.rowDeleteOk = envB.rowDeleteOk →
      processExpiredStory env row = processExpiredStory envB row)
    ∧ (∀ (env : CleanupEnv) (rows : List ExpiredStoryRow),
      (cleanupExpiredStories env rows).results.length = rows.length
      ∧ (cleanupExpiredStories env rows).errorReturned = false
      ∧ ∀ i : Nat,
          (cleanupExpiredStories env rows).results[i]?
            = rows[i]?.map (processExpiredStory env)) := by
  refine ⟨?_, ?_, ?_⟩
  · intro env row hscan
    simp [processExpiredStory, hscan]
  · intro env envB row hscan hrow
    simp only [processExpiredStory, hscan, hrow]
  · intro env rows
    rcases cleanupExpiredStories_spec env rows with ⟨hres, herr⟩
    refine ⟨by rw [hres]; simp, herr, ?_⟩
    intro i
    rw [hres, List.getElem?_map]

/-- Witness for c2_reaper_isolation: with every blob delete failing,
the row delete of the concrete story rowStory7 is still attempted, and
its result is identical to the result under an environment where the
blob deletes succeed. -/
theorem c2_reaper_isolation_witness :
    (processExpiredStory envBlobFail rowStory7).rowDeleteAttempted = true
    ∧ processExpiredStory envBlobFail rowStory7
        = processExpiredStory envBlobOkC2 rowStory7 :=
  ⟨c2_reaper_isolation.1 envBlobFail rowStory7 rfl,
   c2_reaper_isolation.2.1 envBlobFail envBlobOkC2 rowStory7 rfl rfl⟩

/-- Helper: closed form of the per-post blob loop — it yields none iff
some present blob move fails (short-circuiting), and otherwise reports
whether any blob was present. -/
theorem moveBlobs_eq (env : ArchiveEnv) (urls : List (Option String))
    (moved : Bool) :
    moveBlobs env urls moved =
      if (presentUrls urls).all (fun u => env.moveOk (extractPathFromURL u))
      then some (moved || !(presentUrls urls).isEmpty)
      else none := by
  induction urls generalizing moved with
  | nil => simp [moveBlobs, presentUrls]
  | cons o rest ih =>
      cases o with
      | none => simpa [moveBlobs, presentUrls] using ih moved
      | some u =>
          by_cases hu : u = ""
          · simpa [moveBlobs, presentUrls, hu] using ih moved
          · by_cases hm : env.moveOk (extractPathFromURL u)
            · simp [moveBlobs, presentUrls, hu, hm, ih true]
            · simp [moveBlobs, presentUrls, hu, hm]

/-- Claim C1, original form, is false for a candidate post with no
present media blob (a text post qualifies for get_posts_for_archive):
all its present blob moves succeed vacuously, yet ArchiveOldPosts never
calls mark_post_as_archived for it — the mediaMoved flag stays false —
and the post does not end the sweep archived. -/
theorem c1_counterexample :
    isArchivalCandidate nowMar1 postDec31 = true
    ∧ allMovesSucceed envAllOk postDec31 = true
    ∧ (archivePostStep envAllOk nowMar1 postDec31).markCalled = false
    ∧ (archivePostStep envAllOk nowMar1 postDec31).post.archivedAt = none := by
  refine ⟨by decide, by decide, by decide, by decide⟩

/-- Claim C1, amended: for every archival candidate, if any present
blob move fails the post is not marked archived and keeps
storage_class STANDARD with archived_at NULL; and whenever the post
has at least one present media blob and all its present blob moves
succeed, mark_post_as_archived is called, so that when that update
succeeds the post ends the sweep with archived_at set and
storage_class ARCHIVE.  (A candidate with no present blob is skipped
without being marked.) -/
theorem c1_all_or_nothing (env : ArchiveEnv) (now : Date) (p : Post)
    (hc : isArchivalCandidate now p = true) :
    (allMovesSucceed env p = false →
      (archivePostStep env now p).markCalled = false
      ∧ (archivePostStep env now p).post = p
      ∧ (archivePostStep env now p).post.storageClass = StorageClass.standard
      ∧ (archivePostStep env now p).post.archivedAt = none)
    ∧ (allMovesSucceed env p = true → postBlobPaths p ≠ [] →
      (archivePostStep env now p).markCalled = true
      ∧ (env.markOk = true →
        (archivePostStep env now p).post.archivedAt = some now
        ∧ (archivePostStep env now p).post.storageClass
            = StorageClass.archive)) := by
  simp only [isArchivalCandidate, Bool.and_eq_true, decide_eq_true_eq] at hc
  obtain ⟨⟨⟨hdel, harch⟩, hstd⟩, hage⟩ := hc
  have hm := moveBlobs_eq env [p.imageUrl, p.videoUrl, p.thumbnailUrl] false
  have hall : (presentUrls [p.imageUrl, p.videoUrl, p.thumbnailUrl]).all
      (fun u => env.moveOk (extractPathFromURL u)) = allMovesSucceed env p := by
    simp only [allMovesSucceed, postBlobPaths, List.all_map]
    rfl
  rw [hall] at hm
  constructor
  · intro hfail
    rw [hfail] at hm
    simp only [Bool.false_eq_true, if_false] at hm
    simp [archivePostStep, hm, hstd, harch]
  · intro hok hne
    rw [hok] at hm
    simp only [if_true] at hm
    have hpres : presentUrls [p.imageUrl, p.videoUrl, p.thumbnailUrl] ≠ [] := by
      intro h0
      exact hne (by simp [postBlobPaths, h0])
    have hne2 : (presentUrls [p.imageUrl, p.videoUrl, p.thumbnailUrl]).isEmpty
        = false := by
      cases hp : presentUrls [p.imageUrl, p.videoUrl, p.thumbnailUrl] with
      | nil => exact absurd hp hpres
      | cons a l => rfl
    rw [hne2] at hm
    simp only [Bool.not_false, Bool.false_or] at hm
    refine ⟨by simp [archivePostStep, hm], ?_⟩
    intro hmark
    simp [archivePostStep, hm, hmark, markArchivedRow]

/-- Witness for c1_all_or_nothing at the concrete candidate postImg
(one present blob) under the all-succeeding environment: the mark call
happens and the post ends archived. -/
theorem c1_all_or_nothing_witness :
    (archivePostStep envAllOk nowMar1 postImg).markCalled = true
    ∧ (archivePostStep envAllOk nowMar1 postImg).post.archivedAt
        = some nowMar1 :=
  have h := (c1_all_or_nothing envAllOk nowMar1 postImg (by decide)).2
    (by decide) (by decide)
  ⟨h.1, (h.2 rfl).1⟩

/-- Helper: like_count lookup after a counter bump. -/
theorem find_bumpLikeCount (d : Int) (pid : Nat) (posts : List Post) :
    (bumpLikeCount d pid posts).find? (fun p => decide (p.id = pid))
      = (posts.find? (fun p => decide (p.id = pid))).map
          (fun p => { p with likeCount := p.likeCount + d }) := by
  induction posts with
  | nil => rfl
  | cons q rest ih =>
      by_cases hq : q.id = pid
      · simp [bumpLikeCount, List.find?_cons, hq]
      · simp only [bumpLikeCount, List.map_cons] at ih ⊢
        simp [List.find?_cons, hq, ih]

/-- Helper: after the DELETE, the edge is gone. -/
theorem likeExists_deleteLike (db : LikesDB) (pid uid : Nat) :
    likeExists (deleteLike db pid uid).postLikes pid uid = false := by
  simp only [likeExists, deleteLike]
  rw [Bool.eq_false_iff]
  intro hany
  rcases List.any_eq_true.mp hany with ⟨e, hmem, hpred⟩
  rcases List.mem_filter.mp hmem with ⟨-, hkeep⟩
  rw [hpred] at hkeep
  exact absurd hkeep (by simp)

/-- Helper: a present edge under the UNIQUE constraint is matched by
exactly one row. -/
theorem countP_eq_one_of_likeExists (db : LikesDB) (pid uid : Nat)
    (hu : likesUnique db) (hex : likeExists db.postLikes pid uid = true) :
    db.postLikes.countP
        (fun e => decide (e.1 = pid) && decide (e.2 = uid)) = 1 := by
  have hpos : 0 < db.postLikes.countP
      (fun e => decide (e.1 = pid) && decide (e.2 = uid)) := by
    rcases List.any_eq_true.mp hex with ⟨e, hmem, hpred⟩
    exact List.countP_pos_iff.mpr ⟨e, hmem, hpred⟩
  have hle := hu pid uid
  omega

/-- Claim C6: ToggleLike is a counter-consistent toggle — when the
edge exists it is deleted, like_count drops by one and the reply is
liked = false; otherwise the edge is inserted, like_count rises by one
and the reply is liked = true — and in particular Scenario C holds:
two users toggling once on a fresh post yield like_count 2, and the
first user toggling again yields like_count 1 with liked = false. -/
theorem c6_toggle_like :
    (∀ (db : LikesDB) (pid uid : Nat), likesUnique db →
      (likeExists db.postLikes pid uid = true →
        likeExists (toggleLike db pid uid).1.postLikes pid uid = false
        ∧ (toggleLike db pid uid).2.liked = some false
        ∧ ∀ c : Int, likeCountOf db pid = some c →
            likeCountOf (toggleLike db pid uid).1 pid = some (c - 1))
      ∧ (likeExists db.postLikes pid uid = false →
        likeExists (toggleLike db pid uid).1.postLikes pid uid = true
        ∧ (toggleLike db pid uid).2.liked = some true
        ∧ ∀ c : Int, likeCountOf db pid = some c →
            likeCountOf (toggleLike db pid uid).1 pid = some (c + 1)))
    ∧ likeCountOf likesDB2 1 = some 2
    ∧ likeCountOf likesDB3 1 = some 1
    ∧ (toggleLike likesDB2 1 10).2.liked = some false := by
  refine ⟨?_, by decide, by decide, by decide⟩
  intro db pid uid hu
  constructor
  · intro hex
    refine ⟨?_, ?_, ?_⟩
    · simp only [toggleLike, toggleLikeRaced, hex, if_true]
      exact likeExists_deleteLike db pid uid
    · simp [toggleLike, toggleLikeRaced, hex]
    · intro c hc
      simp only [toggleLike, toggleLikeRaced, hex, if_true]
      simp only [likeCountOf, deleteLike,
        countP_eq_one_of_likeExists db pid uid hu hex, find_bumpLikeCount]
      simp only [likeCountOf] at hc
      rcases Option.map_eq_some'.mp hc with ⟨p0, hp0, hval⟩
      rw [hp0]
      simp [hval, Int.sub_eq_add_neg]
  · intro hex
    refine ⟨?_, ?_, ?_⟩
    · simp only [toggleLike, toggleLikeRaced, hex, if_false, insertLike,
        Bool.false_eq_true]
      simp [likeExists]
    · simp [toggleLike, toggleLikeRaced, hex, insertLike]
    · intro c hc
      simp only [toggleLike, toggleLikeRaced, hex, if_false, insertLike,
        Bool.false_eq_true]
      simp only [likeCountOf, find_bumpLikeCount]
      simp only [likeCountOf] at hc
      rcases Option.map_eq_some'.mp hc with ⟨p0, hp0, hval⟩
      rw [hp0]
      simp [hval]

/-- Witness for c6_toggle_like: at the fresh database the insert
branch fires for user 10 on post 1. -/
theorem c6_toggle_like_witness :
    likeExists (toggleLike likesDB0 1 10).1.postLikes 1 10 = true
    ∧ (toggleLike likesDB0 1 10).2.liked = some true :=
  have h := (c6_toggle_like.1 likesDB0 1 10
      (fun pid uid => by simp [likesDB0])).2 (by decide)
  ⟨h.1, h.2.1⟩

/-- Claim C7, original form, is false: when the insert branch is taken
while the edge already exists (the raced duplicate insert), the
handler responds 500 Failed to like post — a fatal server error — and
does not report already liked. -/
theorem c7_counterexample :
    likeExists likesDB0.postLikes 1 10 = false
    ∧ likeExists likesDB1.postLikes 1 10 = true
    ∧ (toggleLikeRaced likesDB0 likesDB1 1 10).2.status = 500
    ∧ (toggleLikeRaced likesDB0 likesDB1 1 10).2.success = false
    ∧ (toggleLikeRaced likesDB0 likesDB1 1 10).2.errorMsg
        = some "Failed to like post" := by
  refine ⟨by decide, by decide, by decide, by decide, by decide⟩

/-- Claim C7, amended: when the insert branch is taken but the edge
already exists, the unique constraint rejects the duplicate row — the
database is left unchanged, so the edge table stays consistent — but
the handler surfaces the failure to the caller as a fatal 500 response
instead of treating it as already liked. -/
theorem c7_duplicate_insert_surfaces_500 (dbCheck dbWrite : LikesDB)
    (pid uid : Nat)
    (hchk : likeExists dbCheck.postLikes pid uid = false)
    (hdup : likeExists dbWrite.postLikes pid uid = true) :
    (toggleLikeRaced dbCheck dbWrite pid uid).1 = dbWrite
    ∧ (toggleLikeRaced dbCheck dbWrite pid uid).2.status = 500
    ∧ (toggleLikeRaced dbCheck dbWrite pid uid).2.success = false
    ∧ (toggleLikeRaced dbCheck dbWrite pid uid).2.liked = none := by
  simp [toggleLikeRaced, hchk, insertLike, hdup]

/-- Witness for c7_duplicate_insert_surfaces_500 at the concrete raced
pair of states from Scenario C. -/
theorem c7_duplicate_insert_witness :
    (toggleLikeRaced likesDB0 likesDB1 1 10).2.status = 500
    ∧ (toggleLikeRaced likesDB0 likesDB1 1 10).2.success = false :=
  have h := c7_duplicate_insert_surfaces_500 likesDB0 likesDB1 1 10
    (by decide) (by decide)
  ⟨h.2.1, h.2.2.1⟩

/-- Helper: viewers after appending one view row. -/
theorem viewersOfViews_append (views : List (Nat × Nat)) (sid uid q : Nat) :
    viewersOfViews (views ++ [(sid, uid)]) q
      = viewersOfViews views q ++ (if sid = q then [uid] else []) := by
  by_cases h : sid = q <;>
    simp [viewersOfViews, List.filter_append, h]

/-- Helper: view-count lookup row shape after a counter bump. -/
theorem mem_bumpViewCount (sid : Nat) (stories : List Story) (s : Story)
    (hs : s ∈ bumpViewCount sid stories) :
    ∃ s0 ∈ stories,
      s = if s0.id = sid
          then { s0 with viewCount := s0.viewCount + 1 } else s0 := by
  rcases List.mem_map.mp hs with ⟨s0, hs0, heq⟩
  exact ⟨s0, hs0, heq.symm⟩

/-- Helper: one TrackView call preserves per-row view-count
consistency and the uniqueness of the edge table. -/
theorem trackView_consistent (db : StoriesDB) (sid uid : Nat)
    (h : viewsConsistent db) : viewsConsistent (trackView db sid uid).1 := by
  by_cases hex : viewExists db.storyViews sid uid = true
  · simpa [trackView, hex] using h
  · have hex2 : viewExists db.storyViews sid uid = false :=
      Bool.not_eq_true _ ▸ Bool.eq_false_iff.mpr hex
    obtain ⟨hcnt, hnd⟩ := h
    have hnotmem : (sid, uid) ∉ db.storyViews := by
      intro hm
      rw [Bool.eq_false_iff] at hex2
      exact hex2 (List.any_eq_true.mpr ⟨(sid, uid), hm, by simp⟩)
    have hstep : (trackView db sid uid).1
        = { stories := bumpViewCount sid db.stories
            storyViews := db.storyViews ++ [(sid, uid)] } := by
      simp [trackView, hex2]
    rw [hstep]
    constructor
    · intro s hs
      rcases mem_bumpViewCount sid db.stories s hs with ⟨s0, hs0, hform⟩
      have hold := hcnt s0 hs0
      by_cases hid : s0.id = sid
      · rw [hform]
        simp only [hid, if_true]
        have : viewersOfViews (db.storyViews ++ [(sid, uid)]) s0.id
            = viewersOfViews db.storyViews s0.id ++ [uid] := by
          rw [viewersOfViews_append]
          simp [hid]
        simp only [viewersOf] at hold ⊢
        simp [hid] at this ⊢
        rw [this]
        simp only [List.length_append, List.length_singleton]
        rw [hid] at hold
        push_cast
        omega
      · rw [hform]
        simp only [hid, if_false]
        have hid2 : ¬sid = s0.id := fun hh => hid hh.symm
        have : viewersOfViews (db.storyViews ++ [(sid, uid)]) s0.id
            = viewersOfViews db.storyViews s0.id := by
          rw [viewersOfViews_append]
          simp [hid2]
        simp only [viewersOf] at hold ⊢
        rw [this]
        exact hold
    · rw [List.nodup_append]
      exact ⟨hnd, List.nodup_singleton _, by
        intro a ha hb
        simp only [List.mem_singleton] at hb
        exact hnotmem (hb ▸ ha)⟩

/-- Claim C9: a repeated (story, user) view is a successful no-op — no
row inserted, no counter change, success reply — and along any
sequence of TrackView calls every story's view_count equals the number
of its recorded view rows, whose user list is duplicate-free, i.e. the
number of distinct users who viewed it. -/
theorem c9_view_idempotent_and_counts :
    (∀ (db : StoriesDB) (sid uid : Nat),
      viewExists db.storyViews sid uid = true →
      trackView db sid uid
        = (db, { status := 200, success := true, liked := none
                 errorMsg := none }))
    ∧ (∀ (db : StoriesDB) (ops : List (Nat × Nat)),
      viewsConsistent db → viewsConsistent (runViews ops db))
    ∧ (∀ (views : List (Nat × Nat)) (sid : Nat),
      views.Nodup → (viewersOfViews views sid).Nodup) := by
  refine ⟨?_, ?_, ?_⟩
  · intro db sid uid hex
    simp [trackView, hex]
  · intro db ops
    induction ops generalizing db with
    | nil => exact fun h => h
    | cons e rest ih =>
        intro h
        exact ih _ (trackView_consistent db e.1 e.2 h)
  · intro views sid hnd
    apply List.Nodup.map_on
    · intro x hx y hy hxy
      rcases List.mem_filter.mp hx with ⟨-, hx1⟩
      rcases List.mem_filter.mp hy with ⟨-, hy1⟩
      simp only [decide_eq_true_eq] at hx1 hy1
      exact Prod.ext (hx1.trans hy1.symm) hxy
    · exact hnd.filter _

/-- Witness for c9_view_idempotent_and_counts: replaying the view
sequence (1,10), (1,10), (1,20) from the fresh database keeps the
consistency invariant, and the duplicate second call is a no-op. -/
theorem c9_view_idempotent_witness :
    viewsConsistent (runViews [(1, 10), (1, 10), (1, 20)] storiesDB0)
    ∧ trackView (runViews [(1, 10)] storiesDB0) 1 10
        = (runViews [(1, 10)] storiesDB0,
           { status := 200, success := true, liked := none
             errorMsg := none }) :=
  ⟨c9_view_idempotent_and_counts.2.1 storiesDB0 [(1, 10), (1, 10), (1, 20)]
      ⟨by decide, by decide⟩,
   c9_view_idempotent_and_counts.1 (runViews [(1, 10)] storiesDB0) 1 10
      (by decide)⟩

/-- Claim C8, original form, is false twice over: a text-post request
carrying an image URL passes binding, handler validation and the
table constraints and creates the row, and a video-post request
carrying an image URL passes binding and handler validation and fails
only at the posts-table CHECK constraint, surfaced as a 500 database
error rather than a validation error. -/
theorem c8_counterexample :
    reqTextWithImage.contentType = "text"
    ∧ reqTextWithImage.imageUrl ≠ none
    ∧ createPost reqTextWithImage = CreateOutcome.created
    ∧ reqVideoWithImage.contentType = "video"
    ∧ reqVideoWithImage.imageUrl ≠ none
    ∧ createPost reqVideoWithImage = CreateOutcome.dbError := by
  refine ⟨by decide, by decide, by decide, by decide, by decide, by decide⟩

/-- Claim C8, amended: requests are rejected with a client error in
two layers.  ShouldBindJSON 400-rejects exactly the requests with a
content_type outside the allowed set or an ill-sized description
(CreatePost), and for CreateStory any request whose non-pointer
thumbnail_url is absent/empty.  Among requests that pass binding, the
handlers reject with a validation error exactly those missing required
media for their content type (CreatePost: image without image_url,
video without video_url or thumbnail_url; CreateStory: image without
image_url, video without video_url).  Forbidden extra media is never
rejected by either client-side layer: a bindable video request
carrying an image URL reaches the INSERT and fails there with a 500
database error, and a bindable text request creates its row whatever
media fields it carries. -/
theorem c8_media_validation :
    (∀ req : CreatePostRequest,
      createPost req = CreateOutcome.bindingError
        ↔ bindCreatePost req = false)
    ∧ (∀ req : CreatePostRequest,
      (∃ msg, createPost req = CreateOutcome.validationError msg)
        ↔ bindCreatePost req = true
          ∧ ((req.contentType = "image" ∧ req.imageUrl = none)
            ∨ (req.contentType = "video"
                ∧ (req.videoUrl = none ∨ req.thumbnailUrl = none))))
    ∧ (∀ req : CreateStoryRequest,
      (∃ msg, createStory req = CreateOutcome.validationError msg)
        ↔ bindCreateStory req = true
          ∧ ((req.contentType = "image" ∧ req.imageUrl = none)
            ∨ (req.contentType = "video" ∧ req.videoUrl = none)))
    ∧ (∀ req : CreateStoryRequest,
      req.thumbnailUrl = "" →
      createStory req = CreateOutcome.bindingError)
    ∧ (∀ req : CreatePostRequest,
      req.contentType = "video" →
      0 < req.description.length → req.description.length ≤ 2000 →
      req.imageUrl ≠ none → req.videoUrl ≠ none → req.thumbnailUrl ≠ none →
      createPost req = CreateOutcome.dbError)
    ∧ (∀ req : CreatePostRequest,
      req.contentType = "text" →
      0 < req.description.length → req.description.length ≤ 2000 →
      createPost req = CreateOutcome.created) := by
  refine ⟨?_, ?_, ?_, ?_, ?_, ?_⟩
  · intro req
    cases hb : bindCreatePost req with
    | false => simp [createPost, hb]
    | true =>
        simp only [createPost, hb]
        rw [if_neg (by simp)]
        constructor
        · intro h
          split at h
          · exact absurd h (by simp)
          · split at h <;> exact absurd h (by simp)
        · intro h
          exact absurd h (by simp)
  · intro req
    cases hb : bindCreatePost req with
    | false =>
        simp only [createPost, hb, if_pos rfl]
        constructor
        · rintro ⟨msg, hmsg⟩
          exact absurd hmsg (by simp)
        · rintro ⟨hbt, -⟩
          exact absurd hbt (by simp)
    | true =>
        simp only [createPost, hb]
        rw [if_neg (by simp)]
        by_cases h1 : req.contentType = "image" ∧ req.imageUrl = none
        · simp [createPostValidationError, h1]
        · by_cases h2 : req.contentType = "video"
              ∧ (req.videoUrl = none ∨ req.thumbnailUrl = none)
          · simp [createPostValidationError, h1, h2]
          · constructor
            · rintro ⟨msg, hmsg⟩
              simp only [createPostValidationError,
                if_neg h1, if_neg h2] at hmsg
              split at hmsg <;> exact absurd hmsg (by simp)
            · rintro ⟨-, hA | hB⟩
              · exact absurd hA h1
              · exact absurd hB h2
  · intro req
    cases hb : bindCreateStory req with
    | false =>
        simp only [createStory, hb, if_pos rfl]
        constructor
        · rintro ⟨msg, hmsg⟩
          exact absurd hmsg (by simp)
        · rintro ⟨hbt, -⟩
          exact absurd hbt (by simp)
    | true =>
        simp only [createStory, hb]
        rw [if_neg (by simp)]
        by_cases h1 : req.contentType = "image" ∧ req.imageUrl = none
        · simp [createStoryValidationError, h1]
        · by_cases h2 : req.contentType = "video" ∧ req.videoUrl = none
          · simp [createStoryValidationError, h1, h2]
          · constructor
            · rintro ⟨msg, hmsg⟩
              simp only [createStoryValidationError,
                if_neg h1, if_neg h2] at hmsg
              split at hmsg <;> exact absurd hmsg (by simp)
            · rintro ⟨-, hA | hB⟩
              · exact absurd hA h1
              · exact absurd hB h2
  · intro req hthumb
    have hb : bindCreateStory req = false := by
      simp [bindCreateStory, hthumb]
    simp [createStory, hb]
  · intro req hct hlen1 hlen2 himg hvid hth
    have hb : bindCreatePost req = true := by
      simp [bindCreatePost, hct, hlen1, hlen2]
    have h1 : ¬(req.contentType = "image" ∧ req.imageUrl = none) := by
      rintro ⟨hc, -⟩
      rw [hct] at hc
      exact absurd hc (by simp)
    have h2 : ¬(req.contentType = "video"
        ∧ (req.videoUrl = none ∨ req.thumbnailUrl = none)) := by
      rintro ⟨-, hv | ht⟩
      · exact hvid hv
      · exact hth ht
    simp only [createPost, hb]
    rw [if_neg (by simp)]
    simp only [createPostValidationError, if_neg h1, if_neg h2]
    have hchk : postsRowCheck req = false := by
      simp [postsRowCheck, hct, himg]
    simp [hchk]
  · intro req hct hlen1 hlen2
    have hb : bindCreatePost req = true := by
      simp [bindCreatePost, hct, hlen1, hlen2]
    have h1 : ¬(req.contentType = "image" ∧ req.imageUrl = none) := by
      rintro ⟨hc, -⟩
      rw [hct] at hc
      exact absurd hc (by simp)
    have h2 : ¬(req.contentType = "video"
        ∧ (req.videoUrl = none ∨ req.thumbnailUrl = none)) := by
      rintro ⟨hc, -⟩
      rw [hct] at hc
      exact absurd hc (by simp)
    simp only [createPost, hb]
    rw [if_neg (by simp)]
    simp only [createPostValidationError, if_neg h1, if_neg h2]
    have hchk : postsRowCheck req = true := by
      simp [postsRowCheck, hct, hlen1, hlen2]
    simp [hchk]

/-- Witness for c8_media_validation at concrete requests: the
video-with-image and text-with-image requests of the counterexample,
and a story request with an absent thumbnail that is 400-rejected at
binding. -/
theorem c8_media_validation_witness :
    createPost reqVideoWithImage = CreateOutcome.dbError
    ∧ createPost reqTextWithImage = CreateOutcome.created
    ∧ createStory reqStoryNoThumb = CreateOutcome.bindingError :=
  ⟨c8_media_validation.2.2.2.2.1 reqVideoWithImage rfl (by decide)
      (by decide) (by decide) (by decide) (by decide),
   c8_media_validation.2.2.2.2.2 reqTextWithImage rfl (by decide)
      (by decide),
   c8_media_validation.2.2.2.1 reqStoryNoThumb rfl⟩

/-- Claim C10, original form, asserts that GCSStorage is the sole
StorageService implementation; this is false — the repository also
provides LocalStorage, and the default (local) provider configuration
selects it. -/
theorem c10_counterexample :
    initStorageService "local" = StorageImpl.localStorage
    ∧ StorageImpl.localStorage ≠ StorageImpl.gcsStorage
    ∧ supportsMoveToArchive StorageImpl.localStorage = false := by
  refine ⟨by decide, by decide, by decide⟩

/-- Claim C10, amended: the StorageService interface declares only
UploadImage and Delete, neither provided implementation (GCSStorage or
LocalStorage) defines MoveToArchive, so whichever provider is
configured, every ArchiveOldPosts run fails the capability check and
skips: no candidate query, no blob move, no post marked, nil error. -/
theorem c10_archive_sweep_always_skips
    (impl : StorageImpl) (env : ArchiveEnv) (now : Date)
    (posts : List Post) (provider : String) :
    supportsMoveToArchive (initStorageService provider) = false
    ∧ supportsMoveToArchive impl = false
    ∧ archiveOldPostsRun impl env now posts
        = { queriedCandidates := false, moveCallCount := 0
            archivedCount := 0, errorReturned := false } := by
  have hsup : ∀ i : StorageImpl, supportsMoveToArchive i = false := by
    intro i
    cases i <;> decide
  refine ⟨hsup _, hsup impl, ?_⟩
  simp [archiveOldPostsRun, hsup impl]
